import Mathlib

set_option maxRecDepth 100000

/-!
Verification development for the GitTracker_Bot repository
(`Bot.py`, `DataBase.py`, `Config.py`).

The Python source is shallowly embedded: byte strings are `List Nat`
(each entry a byte value), machine words are `Nat` reduced mod `2 ^ 32`
where overflow matters, fallible Python code is `Except`, and Python
`None` is `Option.none`.  Every definition follows the corresponding
source function; modelling choices are recorded in the doc comments.
-/

namespace GitTracker

/-! ## 32-bit words as `Nat` mod `2 ^ 32` -/

/-- `2 ^ 32`, the modulus for 32-bit words. -/
def w32 : Nat := 4294967296

/-- Right rotation of a 32-bit word (input assumed `< 2 ^ 32`). -/
def rotr32 (x k : Nat) : Nat := (x >>> k) ||| ((x <<< (32 - k)) % w32)

/-- Bitwise complement of a 32-bit word. -/
def not32 (x : Nat) : Nat := x ^^^ (w32 - 1)

/-! ## SHA-256 (FIPS 180-4), over byte lists

`hashlib.sha256` as used by `Bot.py:verify_webhook_signature`. -/

/-- SHA-256 `Ch` function. -/
def shaCh (x y z : Nat) : Nat := (x &&& y) ^^^ (not32 x &&& z)

/-- SHA-256 `Maj` function. -/
def shaMaj (x y z : Nat) : Nat := (x &&& y) ^^^ (x &&& z) ^^^ (y &&& z)

/-- SHA-256 `Σ0`. -/
def bigSigma0 (x : Nat) : Nat := rotr32 x 2 ^^^ rotr32 x 13 ^^^ rotr32 x 22

/-- SHA-256 `Σ1`. -/
def bigSigma1 (x : Nat) : Nat := rotr32 x 6 ^^^ rotr32 x 11 ^^^ rotr32 x 25

/-- SHA-256 `σ0`. -/
def smallSigma0 (x : Nat) : Nat := rotr32 x 7 ^^^ rotr32 x 18 ^^^ (x >>> 3)

/-- SHA-256 `σ1`. -/
def smallSigma1 (x : Nat) : Nat := rotr32 x 17 ^^^ rotr32 x 19 ^^^ (x >>> 10)

/-- The 64 SHA-256 round constants (FIPS 180-4 §4.2.2), in decimal. -/
def K256 : List Nat :=
  [1116352408, 1899447441, 3049323471, 3921009573, 961987163,
   1508970993, 2453635748, 2870763221, 3624381080, 310598401,
   607225278, 1426881987, 1925078388, 2162078206, 2614888103,
   3248222580, 3835390401, 4022224774, 264347078, 604807628,
   770255983, 1249150122, 1555081692, 1996064986, 2554220882,
   2821834349, 2952996808, 3210313671, 3336571891, 3584528711,
   113926993, 338241895, 666307205, 773529912, 1294757372,
   1396182291, 1695183700, 1986661051, 2177026350, 2456956037,
   2730485921, 2820302411, 3259730800, 3345764771, 3516065817,
   3600352804, 4094571909, 275423344, 430227734, 506948616,
   659060556, 883997877, 958139571, 1322822218, 1537002063,
   1747873779, 1955562222, 2024104815, 2227730452, 2361852424,
   2428436474, 2756734187, 3204031479, 3329325298]

/-- The eight words of the SHA-256 working state. -/
structure SHState where
  a : Nat
  b : Nat
  c : Nat
  d : Nat
  e : Nat
  f : Nat
  g : Nat
  h : Nat
deriving Repr, DecidableEq

/-- SHA-256 initial hash value (FIPS 180-4 §5.3.3), in decimal. -/
def shaInit : SHState :=
  ⟨1779033703, 3144134277, 1013904242, 2773480762,
   1359893119, 2600822924, 528734635, 1541459225⟩

/-- `n` bytes of `x`, big-endian. -/
def toBytesBE : Nat → Nat → List Nat
  | 0, _ => []
  | n + 1, x => toBytesBE n (x / 256) ++ [x % 256]

/-- Group bytes into big-endian 32-bit words. -/
def bytesToWords : List Nat → List Nat
  | a :: b :: c :: d :: rest => (((a * 256 + b) * 256 + c) * 256 + d) :: bytesToWords rest
  | _ => []

/-- Extend the 16-word block by `n` further schedule words. -/
def buildW : Nat → List Nat → List Nat
  | 0, ws => ws
  | n + 1, ws =>
      let i := ws.length
      let w := (smallSigma1 (ws.getD (i - 2) 0) + ws.getD (i - 7) 0 +
                smallSigma0 (ws.getD (i - 15) 0) + ws.getD (i - 16) 0) % w32
      buildW n (ws ++ [w])

/-- One SHA-256 compression round; `kw` is the pair (round constant, schedule word). -/
def compressStep (st : SHState) (kw : Nat × Nat) : SHState :=
  let t1 := (st.h + bigSigma1 st.e + shaCh st.e st.f st.g + kw.1 + kw.2) % w32
  let t2 := (bigSigma0 st.a + shaMaj st.a st.b st.c) % w32
  ⟨(t1 + t2) % w32, st.a, st.b, st.c, (st.d + t1) % w32, st.e, st.f, st.g⟩

/-- Process one 64-byte block. -/
def processBlock (hs : SHState) (block : List Nat) : SHState :=
  let ws := buildW 48 (bytesToWords block)
  let st := (K256.zip ws).foldl compressStep hs
  ⟨(hs.a + st.a) % w32, (hs.b + st.b) % w32, (hs.c + st.c) % w32, (hs.d + st.d) % w32,
   (hs.e + st.e) % w32, (hs.f + st.f) % w32, (hs.g + st.g) % w32, (hs.h + st.h) % w32⟩

/-- SHA-256 padding: append `0x80`, zero bytes, and the 64-bit bit length. -/
def padMessage (msg : List Nat) : List Nat :=
  let len := msg.length
  let z := (119 - len % 64) % 64
  msg ++ 0x80 :: List.replicate z 0 ++ toBytesBE 8 (len * 8)

/-- Split a byte list into 64-byte chunks (`fuel` bounds the recursion). -/
def chunks : Nat → List Nat → List (List Nat)
  | 0, _ => []
  | _, [] => []
  | f + 1, bs => bs.take 64 :: chunks f (bs.drop 64)

/-- SHA-256 digest (32 bytes) of a byte list. -/
def sha256 (msg : List Nat) : List Nat :=
  let padded := padMessage msg
  let fin := (chunks padded.length padded).foldl processBlock shaInit
  [fin.a, fin.b, fin.c, fin.d, fin.e, fin.f, fin.g, fin.h].foldr
    (fun x acc => toBytesBE 4 x ++ acc) []

/-- HMAC-SHA256 (RFC 2104) of `msg` under `key`, as computed by `hmac.new(key, msg,
hashlib.sha256)`.  Block size 64; long keys are hashed first. -/
def hmacSha256 (key msg : List Nat) : List Nat :=
  let k0 := if 64 < key.length then sha256 key else key
  let kp := k0 ++ List.replicate (64 - k0.length) 0
  let inner := sha256 (kp.map (fun b => b ^^^ 0x36) ++ msg)
  sha256 (kp.map (fun b => b ^^^ 0x5c) ++ inner)

/-- Lowercase hex digit for a value `< 16`. -/
def hexDigit (n : Nat) : Char := Char.ofNat (if n < 10 then 48 + n else 87 + n)

/-- Lowercase hex characters of a byte list (Python `.hexdigest()`). -/
def bytesToHexChars : List Nat → List Char
  | [] => []
  | b :: rest => hexDigit (b / 16) :: hexDigit (b % 16) :: bytesToHexChars rest

/-- Lowercase hex string of a byte list. -/
def bytesToHex (bs : List Nat) : String := String.mk (bytesToHexChars bs)

/-- UTF-8 encoding of one character (Python `str.encode()` per character). -/
def utf8Char (c : Char) : List Nat :=
  let n := c.toNat
  if n < 128 then [n]
  else if n < 2048 then [192 + n / 64, 128 + n % 64]
  else if n < 65536 then [224 + n / 4096, 128 + (n / 64) % 64, 128 + n % 64]
  else [240 + n / 262144, 128 + (n / 4096) % 64, 128 + (n / 64) % 64, 128 + n % 64]

/-- UTF-8 encoding of a string (Python `str.encode()`). -/
def strEncode (s : String) : List Nat :=
  s.data.foldr (fun c acc => utf8Char c ++ acc) []

/-! ## `Bot.py:verify_webhook_signature` -/

/-- The signature GitHub would send: `"sha256=" + hexdigest(HMAC-SHA256(secret, payload))`
(`Bot.py` lines 64-69). -/
def expected_signature (secret : String) (payload : List Nat) : String :=
  "sha256=" ++ bytesToHex (hmacSha256 (strEncode secret) payload)

/-- A character in the ASCII range (`str.isascii` per character). -/
def isAsciiChar (c : Char) : Bool := c.toNat < 128

/-- `hmac.compare_digest(a, b)` on two `str` arguments: a constant-time
string equality, but CPython raises `TypeError` (`.error ()`) when either
`str` argument contains a non-ASCII character. -/
def compare_digest (a b : String) : Except Unit Bool :=
  if a.data.all isAsciiChar && b.data.all isAsciiChar then .ok (a == b)
  else .error ()

/-- `Bot.py:verify_webhook_signature(payload, signature, secret)`.
`signature` is the value of the `X-Hub-Signature-256` header, `none` when the
header is absent (Python `None`); Python `if not secret or not signature`
is true for `None` and for the empty string.  Past that guard the function
returns `hmac.compare_digest(expected, signature)`, which raises (`.error`)
when the received signature string is not ASCII-only (headers are
latin-1-decoded, so such strings are reachable). -/
def verify_webhook_signature (payload : List Nat) (signature : Option String)
    (secret : String) : Except Unit Bool :=
  if secret = "" ∨ signature = none ∨ signature = some "" then .ok false
  else compare_digest (expected_signature secret payload) (signature.getD "")

example : bytesToHex (sha256 []) =
    "e3b0c44298fc1c149afbf4c8996fb92427ae41e4649b934ca495991b7852b855" := by decide
example : bytesToHex (sha256 (strEncode "abc")) =
    "ba7816bf8f01cfea414140de5dae2223b00361a396177a9cb410ff61f20015ad" := by decide

/-! ## Python string primitives over `List Char`

Kernel-evaluable models of the `str` operations `Bot.py` uses. -/

/-- The ASCII whitespace characters removed by Python `str.strip()`. -/
def isPySpace (c : Char) : Bool :=
  c = ' ' || c = '\t' || c = '\n' || c = '\x0d' || c = '\x0b' || c = '\x0c'

/-- Python `str.strip()` (ASCII whitespace; the claims use only ASCII inputs). -/
def stripChars (s : List Char) : List Char :=
  ((s.dropWhile isPySpace).reverse.dropWhile isPySpace).reverse

/-- Python `str.rstrip("/")`. -/
def rstripSlash (s : List Char) : List Char :=
  (s.reverse.dropWhile (fun c => c = '/')).reverse

/-- Python `needle in hay` on strings. -/
def hasSub (needle : List Char) : List Char → Bool
  | [] => needle.isEmpty
  | c :: rest => needle.isPrefixOf (c :: rest) || hasSub needle rest

/-- Python `str.split(sep)` for a non-empty separator; `fuel` bounds the recursion
(`length + 1` always suffices) and `acc` holds the current piece reversed. -/
def splitOnFuel (sep : List Char) : Nat → List Char → List Char → List (List Char)
  | 0, s, acc => [acc.reverse ++ s]
  | _ + 1, [], acc => [acc.reverse]
  | f + 1, c :: rest, acc =>
      if sep.isPrefixOf (c :: rest) then
        acc.reverse :: splitOnFuel sep f (List.drop (sep.length - 1) rest) []
      else splitOnFuel sep f rest (c :: acc)

/-- Python `str.split(sep)` for a non-empty separator. -/
def splitOnL (sep s : List Char) : List (List Char) :=
  splitOnFuel sep (s.length + 1) s []

/-! ## `Bot.py:validate_github_repo` -/

/-- A character of the class `[a-zA-Z0-9._-]`. -/
def isAllowedChar (c : Char) : Bool :=
  ('a' ≤ c && c ≤ 'z') || ('A' ≤ c && c ≤ 'Z') || ('0' ≤ c && c ≤ '9') ||
  c = '.' || c = '_' || c = '-'

/-- Python `re.match(r"^[a-zA-Z0-9._-]+$", s)` is not `None`.  Python's `$` also
matches just before a single trailing newline, hence the second disjunct. -/
def pyRegexAllowed (s : List Char) : Bool :=
  (!s.isEmpty && s.all isAllowedChar) ||
  (match s.reverse with
   | '\n' :: rest => !rest.isEmpty && rest.all (fun c => isAllowedChar c)
   | _ => false)

/-- `Bot.py:validate_github_repo` (lines 90-129): normalize `owner/repo` or a
GitHub URL, returning `none` when invalid.  The `isinstance` guard is implied by
the `String` type; `split("github.com/")[1]` raising `IndexError` is the
`none` branch of the `get?`. -/
def validate_github_repo (repo_input : String) : Option String :=
  if repo_input = "" then none
  else
    let s := stripChars repo_input.data
    let repoOpt : Option (List Char) :=
      if ("http".data).isPrefixOf s then
        if hasSub ("github.com/".data) s then
          (splitOnL ("github.com/".data) (rstripSlash s)).get? 1
        else none
      else some s
    match repoOpt with
    | none => none
    | some repo =>
      if !repo.contains '/' || 1 < repo.count '/' then none
      else
        match splitOnL ['/'] repo with
        | [owner, rname] =>
          if owner.isEmpty || rname.isEmpty then none
          else if !pyRegexAllowed owner || !pyRegexAllowed rname then none
          else some (String.mk (owner ++ '/' :: rname))
        | _ => none

/-! ## JSON values and Python attribute access

The parsed webhook payload (`request.get_json()`) is a Python value; `Json`
models it.  Python `None` (also the parse of JSON `null`) is `Json.null`. -/

/-- A parsed JSON / Python value. -/
inductive Json where
  | null
  | bool (b : Bool)
  | num (n : Int)
  | str (s : String)
  | arr (xs : List Json)
  | obj (fields : List (String × Json))

/-- Python truthiness test `not x` for a parsed value: `None`, `False`, `0`,
`""`, `[]`, `{}` are falsy. -/
def Json.isFalsy : Json → Bool
  | .null => true
  | .bool b => !b
  | .num n => n == 0
  | .str s => s == ""
  | .arr xs => xs.isEmpty
  | .obj fs => fs.isEmpty

/-- Python `v.get(key, dflt)`: on a dict, the stored value or the default;
on any non-dict value an `AttributeError` is raised (`.error ()`). -/
def pyGet (v : Json) (key : String) (dflt : Json) : Except Unit Json :=
  match v with
  | .obj fs => .ok ((fs.lookup key).getD dflt)
  | _ => .error ()

/-- `data.get("repository", {}).get("full_name")`, the repository-name
extraction shared by every event handler in `Bot.py`. -/
def extract_repo_name (data : Json) : Except Unit Json := do
  let repo ← pyGet data "repository" (.obj [])
  pyGet repo "full_name" .null

/-! ## Subscriptions, delivery attempts, HTTP responses -/

/-- One row returned by `DataBase.get_user_repo_connections_by_repo`, as the
handlers use it. -/
structure Connection where
  chatId : Int
  chatType : String
  topicId : Option Int
deriving Repr, DecidableEq

/-- A `jsonify({key: value}), code` pair as returned by the Flask handlers. -/
structure HttpResp where
  key : String
  value : String
  code : Nat
deriving Repr, DecidableEq

/-- Build an HTTP response. -/
def jsonResp (k v : String) (c : Nat) : HttpResp := ⟨k, v, c⟩

/-- The body of each handler's per-connection `try` block (format the message
and submit it to the bot loop) is a fallible action; the handlers quantify over
it.  `attemptAll` is the `for connection in connections` loop: every
connection is attempted and each failure is caught (recorded), never
propagated. -/
def attemptAll (attempt : Connection → Except String Unit) :
    List Connection → List (Connection × Except String Unit)
  | [] => []
  | c :: rest => (c, attempt c) :: attemptAll attempt rest

/-- `asyncio.run_coroutine_threadsafe(coro, BotLoop)`: with `BotLoop = None`
(startup race) it raises `AttributeError` synchronously in the calling thread;
with a live loop the submission succeeds. -/
def run_coroutine_threadsafe (botLoop : Option Unit) : Except String Unit :=
  match botLoop with
  | none => .error "AttributeError: NoneType object has no attribute call_soon_threadsafe"
  | some _ => .ok ()

/-- The per-connection `try` body of `handle_push_event`: format the message
(`fmt`, which may raise) then submit to the bot loop. -/
def pushAttempt (botLoop : Option Unit) (fmt : Connection → Except String String)
    (c : Connection) : Except String Unit :=
  match fmt c with
  | .error e => .error e
  | .ok _ => run_coroutine_threadsafe botLoop

/-- `DataBase.get_user_repo_connections_by_repo(repo_name)` given the repository
name value from the payload.  The Python helper calls `repo_name.lower()` inside
its own `try`, so a non-string (truthy) name raises `AttributeError` there and
the helper returns `[]`.  The string-indexed lookup `connsFor` abstracts the
database state. -/
def connsOf (connsFor : String → List Connection) : Json → List Connection
  | .str s => connsFor s
  | _ => []

/-! ## Event handlers (`Bot.py` lines 999-1210)

Each handler returns the Flask response together with the list of attempted
per-connection deliveries and their outcomes. -/

/-- `Bot.py:handle_push_event`.  The outer `try` turns any uncaught exception
(here: `AttributeError` from attribute access on a non-dict) into a 500. -/
def handle_push_event (connsFor : String → List Connection)
    (attempt : Connection → Except String Unit) (data : Json) :
    HttpResp × List (Connection × Except String Unit) :=
  match extract_repo_name data with
  | .error _ => (jsonResp "error" "Push Processing Failed" 500, [])
  | .ok repoName =>
    if repoName.isFalsy then (jsonResp "error" "Missing Repository" 400, [])
    else
      let connections := connsOf connsFor repoName
      if connections.isEmpty then (jsonResp "status" "No Connections" 200, [])
      else
        match pyGet data "commits" (.arr []) with
        | .error _ => (jsonResp "error" "Push Processing Failed" 500, [])
        | .ok commits =>
          if commits.isFalsy then (jsonResp "status" "No Commits" 200, [])
          else (jsonResp "status" "Processed" 200, attemptAll attempt connections)

/-- `Bot.py:handle_pull_request_event`: requires `repository.full_name` and
`action`, then fans out to every connection (no empty-connections early
return). -/
def handle_pull_request_event (connsFor : String → List Connection)
    (attempt : Connection → Except String Unit) (data : Json) :
    HttpResp × List (Connection × Except String Unit) :=
  match extract_repo_name data, pyGet data "action" .null with
  | .error _, _ => (jsonResp "error" "PR Processing Failed" 500, [])
  | _, .error _ => (jsonResp "error" "PR Processing Failed" 500, [])
  | .ok repoName, .ok action =>
    if repoName.isFalsy || action.isFalsy then (jsonResp "error" "Missing Fields" 400, [])
    else (jsonResp "status" "Processed" 200, attemptAll attempt (connsOf connsFor repoName))

/-- `Bot.py:handle_issues_event`: same shape as the pull-request handler. -/
def handle_issues_event (connsFor : String → List Connection)
    (attempt : Connection → Except String Unit) (data : Json) :
    HttpResp × List (Connection × Except String Unit) :=
  match extract_repo_name data, pyGet data "action" .null with
  | .error _, _ => (jsonResp "error" "Issue Processing Failed" 500, [])
  | _, .error _ => (jsonResp "error" "Issue Processing Failed" 500, [])
  | .ok repoName, .ok action =>
    if repoName.isFalsy || action.isFalsy then (jsonResp "error" "Missing Fields" 400, [])
    else (jsonResp "status" "Processed" 200, attemptAll attempt (connsOf connsFor repoName))

/-- `Bot.py:handle_release_event`: same shape as the pull-request handler. -/
def handle_release_event (connsFor : String → List Connection)
    (attempt : Connection → Except String Unit) (data : Json) :
    HttpResp × List (Connection × Except String Unit) :=
  match extract_repo_name data, pyGet data "action" .null with
  | .error _, _ => (jsonResp "error" "Release Processing Failed" 500, [])
  | _, .error _ => (jsonResp "error" "Release Processing Failed" 500, [])
  | .ok repoName, .ok action =>
    if repoName.isFalsy || action.isFalsy then (jsonResp "error" "Missing Fields" 400, [])
    else (jsonResp "status" "Processed" 200, attemptAll attempt (connsOf connsFor repoName))

/-- `Bot.py:handle_create_event`: requires `repository.full_name`, `ref_type`,
`ref`; the message template is built before the loop and evaluates
`repo_name.split('/')[1]` and `ref_type.capitalize()`, which raise (500)
unless `repo_name` is a string containing `'/'` and `ref_type` is a string. -/
def handle_create_event (connsFor : String → List Connection)
    (attempt : Connection → Except String Unit) (data : Json) :
    HttpResp × List (Connection × Except String Unit) :=
  match extract_repo_name data, pyGet data "ref_type" .null, pyGet data "ref" .null with
  | .error _, _, _ => (jsonResp "error" "Create Processing Failed" 500, [])
  | _, .error _, _ => (jsonResp "error" "Create Processing Failed" 500, [])
  | _, _, .error _ => (jsonResp "error" "Create Processing Failed" 500, [])
  | .ok repoName, .ok refType, .ok ref =>
    if repoName.isFalsy || refType.isFalsy || ref.isFalsy then
      (jsonResp "error" "Missing Fields" 400, [])
    else
      let connections := connsOf connsFor repoName
      match repoName, refType with
      | .str s, .str _ =>
        if 2 ≤ (splitOnL ['/'] s.data).length then
          (jsonResp "status" "Processed" 200, attemptAll attempt connections)
        else (jsonResp "error" "Create Processing Failed" 500, [])
      | _, _ => (jsonResp "error" "Create Processing Failed" 500, [])

/-- `Bot.py:handle_delete_event`: same shape as the create handler. -/
def handle_delete_event (connsFor : String → List Connection)
    (attempt : Connection → Except String Unit) (data : Json) :
    HttpResp × List (Connection × Except String Unit) :=
  match extract_repo_name data, pyGet data "ref_type" .null, pyGet data "ref" .null with
  | .error _, _, _ => (jsonResp "error" "Delete Processing Failed" 500, [])
  | _, .error _, _ => (jsonResp "error" "Delete Processing Failed" 500, [])
  | _, _, .error _ => (jsonResp "error" "Delete Processing Failed" 500, [])
  | .ok repoName, .ok refType, .ok ref =>
    if repoName.isFalsy || refType.isFalsy || ref.isFalsy then
      (jsonResp "error" "Missing Fields" 400, [])
    else
      let connections := connsOf connsFor repoName
      match repoName, refType with
      | .str s, .str _ =>
        if 2 ≤ (splitOnL ['/'] s.data).length then
          (jsonResp "status" "Processed" 200, attemptAll attempt connections)
        else (jsonResp "error" "Delete Processing Failed" 500, [])
      | _, _ => (jsonResp "error" "Delete Processing Failed" 500, [])

/-! ## The `/webhook` route (`Bot.py` lines 949-996) -/

/-- The inbound request: raw body bytes and the two consumed headers
(`X-Hub-Signature-256`, `X-GitHub-Event`), each `none` when absent. -/
structure WebhookRequest where
  payload : List Nat
  signature : Option String
  eventType : Option String

/-- Python truthiness of `Config.config.github.webhook_secret`
(an `Optional[str]`). -/
def secretTruthy : Option String → Bool
  | none => false
  | some s => s ≠ ""

/-- The post-verification part of the route: parse the JSON body
(`parsed = .error ()` models `request.get_json()` raising on malformed JSON;
a falsy parse, including `None` for an empty body, is rejected as
`Empty Payload`), then dispatch on `X-GitHub-Event`. -/
def webhookBody (connsFor : String → List Connection)
    (attempt : Connection → Except String Unit)
    (req : WebhookRequest) (parsed : Except Unit Json) :
    HttpResp × List (Connection × Except String Unit) :=
  match parsed with
  | .error _ => (jsonResp "error" "Invalid JSON" 400, [])
  | .ok data =>
    if data.isFalsy then (jsonResp "error" "Empty Payload" 400, [])
    else
      match req.eventType with
      | some "push" => handle_push_event connsFor attempt data
      | some "pull_request" => handle_pull_request_event connsFor attempt data
      | some "issues" => handle_issues_event connsFor attempt data
      | some "create" => handle_create_event connsFor attempt data
      | some "delete" => handle_delete_event connsFor attempt data
      | some "release" => handle_release_event connsFor attempt data
      | _ => (jsonResp "status" "ignored" 200, [])

/-- `Bot.py:Webhook`: verify the signature only when a webhook secret is
configured (truthy), then parse and dispatch.  If `verify_webhook_signature`
raises (non-ASCII signature string in `compare_digest`), the route's outer
`except Exception` (Bot.py lines 994-996) answers 500 "Internal Server
Error".  `parsed` is the outcome of `request.get_json()` on `req.payload`;
it is passed alongside the raw bytes because the JSON parser itself is not
part of this embedding. -/
def Webhook (secretCfg : Option String) (connsFor : String → List Connection)
    (attempt : Connection → Except String Unit)
    (req : WebhookRequest) (parsed : Except Unit Json) :
    HttpResp × List (Connection × Except String Unit) :=
  if secretTruthy secretCfg then
    match verify_webhook_signature req.payload req.signature (secretCfg.getD "") with
    | .error _ => (jsonResp "error" "Internal Server Error" 500, [])
    | .ok b =>
      if b then webhookBody connsFor attempt req parsed
      else (jsonResp "error" "Invalid Signature" 401, [])
  else webhookBody connsFor attempt req parsed

/-! ## `DataBase.py`: the `User_Repo_Connections` table

The table (`init_database`, lines 94-108) carries
`UNIQUE KEY unique_connection (Telegram_Id, Repo_Name, Chat_Id, Topic_Id)`
with `Topic_Id BIGINT NULL`.  MySQL semantics modelled here:

* a `UNIQUE` index never treats two rows with a `NULL` key column as
  duplicates, so a row whose `Topic_Id` is `NULL` conflicts with nothing;
* SQL `=` involving `NULL` is never true, while `IS NULL` tests for `NULL`.

`Repo_Name` comparisons are modelled as exact string equality (MySQL's default
collation is case-insensitive, which only merges *more* keys; every theorem
below uses identically-spelled names, where the two semantics agree). -/

/-- A stored row of `User_Repo_Connections` (the auto-increment `Id` and the
timestamp are omitted; they never participate in the claims). -/
structure ConnRow where
  telegramId : Int
  repoName : String
  chatId : Int
  chatType : String
  topicId : Option Int
deriving Repr, DecidableEq

/-- Whether inserting `s` hits the `unique_connection` key of existing row `r`:
all four key columns equal, with `NULL` `Topic_Id` never equal to anything
(MySQL unique-index semantics). -/
def keyConflict (r s : ConnRow) : Bool :=
  r.telegramId == s.telegramId && r.repoName == s.repoName && r.chatId == s.chatId &&
  match r.topicId, s.topicId with
  | some a, some b => a == b
  | _, _ => false

/-- `DataBase.py:add_repo_connection` (lines 185-215):
`INSERT ... ON DUPLICATE KEY UPDATE Repo_Name=VALUES(Repo_Name)`.
On a key conflict the conflicting row's `Repo_Name` is overwritten with the
same value (a value-level no-op); otherwise the row is appended.  The Python
function returns `True` in both cases. -/
def add_repo_connection (table : List ConnRow) (tid : Int) (repo : String)
    (chat : Int) (ctype : String) (topic : Option Int) : List ConnRow :=
  let row : ConnRow := ⟨tid, repo, chat, ctype, topic⟩
  if table.any (fun r => keyConflict r row) then
    table.map (fun r => if keyConflict r row then { r with repoName := repo } else r)
  else table ++ [row]

/-- SQL `Topic_Id = %s` under NULL semantics: true only when both sides are
non-NULL and equal. -/
def sqlTopicEq (rowTopic given : Option Int) : Bool :=
  match rowTopic, given with
  | some a, some b => a == b
  | _, _ => false

/-- `DataBase.py:remove_repo_connection` (lines 217-244):
`DELETE ... WHERE Telegram_Id=%s AND Repo_Name=%s AND Chat_Id=%s AND
(Topic_Id=%s OR Topic_Id IS NULL)`. -/
def remove_repo_connection (table : List ConnRow) (tid : Int) (repo : String)
    (chat : Int) (topic : Option Int) : List ConnRow :=
  table.filter (fun r =>
    !(r.telegramId == tid && r.repoName == repo && r.chatId == chat &&
      (sqlTopicEq r.topicId topic || r.topicId == none)))

/-! ## Shared lemmas -/

/-- The expected signature string is never empty (it starts with `"sha256="`). -/
theorem expected_signature_ne_empty (secret : String) (payload : List Nat) :
    expected_signature secret payload ≠ "" := by
  intro h
  have hlen := congrArg String.length h
  rw [expected_signature, String.length_append] at hlen
  simp at hlen
  exact absurd hlen.1 (by decide)

/-- Every byte emitted by `toBytesBE` is below 256. -/
theorem toBytesBE_lt (n x : Nat) : ∀ b ∈ toBytesBE n x, b < 256 := by
  induction n generalizing x with
  | zero => intro b hb; simp [toBytesBE] at hb
  | succ n ih =>
    intro b hb
    rw [toBytesBE] at hb
    rcases List.mem_append.mp hb with h | h
    · exact ih _ b h
    · rw [List.mem_singleton] at h
      subst h
      exact Nat.mod_lt _ (by decide)

/-- Every byte of the word-serialisation fold in `sha256` is below 256. -/
theorem foldrBytes_lt (ws : List Nat) :
    ∀ b ∈ ws.foldr (fun x acc => toBytesBE 4 x ++ acc) [], b < 256 := by
  induction ws with
  | nil => intro b hb; simp at hb
  | cons w rest ih =>
    intro b hb
    rw [List.foldr_cons] at hb
    rcases List.mem_append.mp hb with h | h
    · exact toBytesBE_lt 4 w b h
    · exact ih b h

/-- SHA-256 digests are byte lists: every entry is below 256. -/
theorem sha256_mem_lt (msg : List Nat) : ∀ b ∈ sha256 msg, b < 256 := by
  intro b hb
  exact foldrBytes_lt _ b hb

/-- Hex digits of values below 16 are ASCII. -/
theorem hexDigit_ascii (n : Nat) (h : n < 16) : isAsciiChar (hexDigit n) = true := by
  interval_cases n <;> decide

/-- The hex encoding of a byte list is ASCII-only. -/
theorem bytesToHexChars_ascii (bs : List Nat) (h : ∀ b ∈ bs, b < 256) :
    (bytesToHexChars bs).all isAsciiChar = true := by
  induction bs with
  | nil => rfl
  | cons b rest ih =>
    have hb : b < 256 := h b (List.mem_cons_self b rest)
    have hdiv : b / 16 < 16 := Nat.div_lt_of_lt_mul (by omega)
    have hmod : b % 16 < 16 := Nat.mod_lt _ (by decide)
    simp only [bytesToHexChars, List.all_cons, Bool.and_eq_true]
    exact ⟨hexDigit_ascii _ hdiv, hexDigit_ascii _ hmod,
           ih (fun x hx => h x (List.mem_cons_of_mem b hx))⟩

/-- The expected signature string is ASCII-only (`"sha256="` plus lowercase
hex), so `compare_digest` never raises because of it. -/
theorem expected_signature_ascii (secret : String) (payload : List Nat) :
    (expected_signature secret payload).data.all isAsciiChar = true := by
  rw [expected_signature, String.data_append, List.all_append, Bool.and_eq_true]
  exact ⟨by decide, bytesToHexChars_ascii _ (sha256_mem_lt _)⟩

/-- For a non-empty secret, the exact expected signature is accepted. -/
theorem verify_expected_true (payload : List Nat) (secret : String) (h : secret ≠ "") :
    verify_webhook_signature payload (some (expected_signature secret payload)) secret
      = .ok true := by
  unfold verify_webhook_signature
  rw [if_neg]
  · simp only [Option.getD_some]
    unfold compare_digest
    rw [expected_signature_ascii]
    simp
  · push_neg
    refine ⟨h, by simp, ?_⟩
    simp [expected_signature_ne_empty]

/-- Any received signature other than the expected string that is missing or
ASCII-comparable is rejected with `False`. -/
theorem verify_ascii_reject (payload : List Nat) (secret : String) (sig : Option String)
    (hne : sig ≠ some (expected_signature secret payload))
    (hascii : sig = none ∨ ∃ s, sig = some s ∧ s.data.all isAsciiChar = true) :
    verify_webhook_signature payload sig secret = .ok false := by
  unfold verify_webhook_signature
  split
  · rfl
  · rename_i hcond
    push_neg at hcond
    obtain ⟨hs, hsn, hse⟩ := hcond
    rcases hascii with h | ⟨s, rfl, hall⟩
    · exact absurd h hsn
    · have hbeq : (expected_signature secret payload == s) = false :=
        beq_eq_false_iff_ne.mpr (fun heq => hne (by rw [heq]))
      simp only [Option.getD_some]
      unfold compare_digest
      rw [expected_signature_ascii, hall]
      simp [hbeq]

/-- A non-empty non-ASCII received signature makes the verifier raise
(`hmac.compare_digest` raises `TypeError`). -/
theorem verify_nonascii_error (payload : List Nat) (secret s : String)
    (hsec : secret ≠ "") (hs : s ≠ "")
    (hall : s.data.all isAsciiChar = false) :
    verify_webhook_signature payload (some s) secret = .error () := by
  unfold verify_webhook_signature
  rw [if_neg]
  · simp only [Option.getD_some]
    unfold compare_digest
    rw [hall, Bool.and_false]
    rfl
  · push_neg
    exact ⟨hsec, by simp, by simp [hs]⟩

/-- The fan-out loop attempts every connection, in order, whatever the
outcomes are. -/
theorem attemptAll_map_fst (attempt : Connection → Except String Unit)
    (l : List Connection) : (attemptAll attempt l).map Prod.fst = l := by
  induction l with
  | nil => rfl
  | cons c rest ih => simp [attemptAll, ih]

/-- Each recorded outcome of the fan-out loop is the attempt's result on its
own connection. -/
theorem attemptAll_outcome (attempt : Connection → Except String Unit)
    (l : List Connection) (p : Connection × Except String Unit)
    (hp : p ∈ attemptAll attempt l) : p.2 = attempt p.1 := by
  induction l with
  | nil => simp [attemptAll] at hp
  | cons c rest ih =>
    simp only [attemptAll, List.mem_cons] at hp
    rcases hp with h | h
    · subst h; rfl
    · exact ih h

/-- With `BotLoop = None`, every per-connection delivery attempt fails. -/
theorem pushAttempt_none_isError (fmt : Connection → Except String String)
    (c : Connection) : ∃ e, pushAttempt none fmt c = .error e := by
  unfold pushAttempt
  cases fmt c with
  | error e => exact ⟨e, rfl⟩
  | ok _ => exact ⟨_, rfl⟩

/-- A successful `pyGet` means the receiver was a dict. -/
theorem pyGet_ok_obj {v : Json} {k : String} {d x : Json}
    (h : pyGet v k d = .ok x) : ∃ fs, v = Json.obj fs := by
  cases v with
  | obj fs => exact ⟨fs, rfl⟩
  | null => simp [pyGet] at h
  | bool b => simp [pyGet] at h
  | num n => simp [pyGet] at h
  | str s => simp [pyGet] at h
  | arr xs => simp [pyGet] at h

/-- Reaching the push fan-out loop: present repository with at least one
connection and a non-empty commit list yields `Processed`/200 with every
connection attempted. -/
theorem handle_push_event_processed (connsFor : String → List Connection)
    (attempt : Connection → Except String Unit) (data : Json) (repo : String)
    (commits : Json)
    (hrepo : extract_repo_name data = .ok (.str repo)) (hne : repo ≠ "")
    (hconns : connsFor repo ≠ [])
    (hcommits : pyGet data "commits" (.arr []) = .ok commits)
    (hcf : commits.isFalsy = false) :
    handle_push_event connsFor attempt data =
      (jsonResp "status" "Processed" 200, attemptAll attempt (connsFor repo)) := by
  have hfal : (Json.str repo).isFalsy = false := by
    simp [Json.isFalsy]; exact hne
  have hemp : (connsFor repo).isEmpty = false := by
    cases h : connsFor repo with
    | nil => exact absurd h hconns
    | cons a as => rfl
  simp [handle_push_event, hrepo, hfal, connsOf, hemp, hcommits, hcf]

/-- Reaching the pull-request fan-out loop: present repository and action
yield `Processed`/200 with every connection attempted. -/
theorem handle_pull_request_event_processed (connsFor : String → List Connection)
    (attempt : Connection → Except String Unit) (data : Json) (repo : String)
    (action : Json)
    (hrepo : extract_repo_name data = .ok (.str repo)) (hne : repo ≠ "")
    (haction : pyGet data "action" .null = .ok action)
    (haf : action.isFalsy = false) :
    handle_pull_request_event connsFor attempt data =
      (jsonResp "status" "Processed" 200, attemptAll attempt (connsFor repo)) := by
  have hfal : (Json.str repo).isFalsy = false := by
    simp [Json.isFalsy]; exact hne
  simp [handle_pull_request_event, hrepo, haction, hfal, haf, connsOf]

/-- A request that reaches dispatch with an unsupported (or absent) event type
is acknowledged as ignored. -/
theorem webhookBody_ignored (connsFor : String → List Connection)
    (attempt : Connection → Except String Unit) (req : WebhookRequest)
    (parsed : Except Unit Json) (data : Json)
    (hp : parsed = .ok data) (hd : data.isFalsy = false)
    (hevt : req.eventType ∉ [some "push", some "pull_request", some "issues",
                             some "create", some "delete", some "release"]) :
    webhookBody connsFor attempt req parsed = (jsonResp "status" "ignored" 200, []) := by
  subst hp
  simp only [List.mem_cons, List.not_mem_nil, or_false, not_or] at hevt
  obtain ⟨h1, h2, h3, h4, h5, h6⟩ := hevt
  simp only [webhookBody, hd, Bool.false_eq_true, if_false]

/-! ## Claim theorems -/

/-- Claim C1, amended (two corrections forced by the counterexample: the
secret must be non-empty, and the claimed "returns false for every other
signature / returns a boolean and never throws" only covers ASCII-comparable
signatures): for every payload byte string and every NON-empty secret string,
`verify_webhook_signature` returns true exactly for the received signature
`"sha256=" ++ hex(HMAC-SHA256(secret, payload))`; every other received
signature that is missing, empty or ASCII-only is rejected with false; a
non-empty non-ASCII received signature makes `hmac.compare_digest` raise
`TypeError`, so the function is not total. -/
theorem verify_webhook_signature_iff_expected (payload : List Nat) (secret : String)
    (h : secret ≠ "") :
    verify_webhook_signature payload (some (expected_signature secret payload)) secret
      = .ok true ∧
    (∀ sig : Option String, sig ≠ some (expected_signature secret payload) →
      (sig = none ∨ ∃ s, sig = some s ∧ s.data.all isAsciiChar = true) →
      verify_webhook_signature payload sig secret = .ok false) ∧
    (∀ s : String, s ≠ "" → s.data.all isAsciiChar = false →
      verify_webhook_signature payload (some s) secret = .error ()) :=
  ⟨verify_expected_true payload secret h,
   fun sig hne ha => verify_ascii_reject payload secret sig hne ha,
   fun s hs ha => verify_nonascii_error payload secret s h hs ha⟩

/-- Witness for C1 at secret `"k"`, payload `[97]`: the expected signature is
accepted, a missing header is rejected, the non-ASCII signature `"\xff"`
raises. -/
theorem verify_webhook_signature_iff_expected_witness :
    verify_webhook_signature [97] (some (expected_signature "k" [97])) "k" = .ok true ∧
    verify_webhook_signature [97] none "k" = .ok false ∧
    verify_webhook_signature [97] (some "\xff") "k" = .error () :=
  ⟨(verify_webhook_signature_iff_expected [97] "k" (by decide)).1,
   (verify_webhook_signature_iff_expected [97] "k" (by decide)).2.1 none (by simp)
     (Or.inl rfl),
   (verify_webhook_signature_iff_expected [97] "k" (by decide)).2.2 "\xff"
     (by decide) (by decide)⟩

/-- Counterexample to C1 as stated: (i) with the empty secret (`secret = ""`)
and the empty payload, the received signature that equals exactly
`"sha256=" ++ hex(HMAC-SHA256("", payload))` is rejected, because `Bot.py`
line 61 (`if not secret or not signature`) returns `False` first, though the
claim requires acceptance for every secret string; (ii) the claim's "returns
a boolean and never throws" fails: with secret `"k"` the non-ASCII received
signature `"\xff"` makes `hmac.compare_digest` raise `TypeError`. -/
theorem verify_webhook_signature_original_claim_cex :
    verify_webhook_signature [] (some (expected_signature "" [])) "" = .ok false ∧
    verify_webhook_signature [] (some "\xff") "k" = .error () :=
  ⟨by unfold verify_webhook_signature; rw [if_pos (Or.inl rfl)],
   verify_nonascii_error [] "k" "\xff" (by decide) (by decide) (by decide)⟩

/-- Claim C2: when a supported event (push / pull request) reaches its fan-out
loop with the subscribed connections, the handler attempts delivery to every
connection in order — whatever each per-destination attempt returns, including
errors — and still answers `Processed` / 200.  The per-destination outcome
function `attempt` is universally quantified, so one destination's failure
never removes another destination from the attempted list. -/
theorem fanout_isolates_failures (connsFor : String → List Connection)
    (attempt : Connection → Except String Unit) (data : Json) (repo : String)
    (commits action : Json)
    (hrepo : extract_repo_name data = .ok (.str repo)) (hne : repo ≠ "")
    (hconns : connsFor repo ≠ [])
    (hcommits : pyGet data "commits" (.arr []) = .ok commits)
    (hcf : commits.isFalsy = false)
    (haction : pyGet data "action" .null = .ok action)
    (haf : action.isFalsy = false) :
    handle_push_event connsFor attempt data =
      (jsonResp "status" "Processed" 200, attemptAll attempt (connsFor repo)) ∧
    handle_pull_request_event connsFor attempt data =
      (jsonResp "status" "Processed" 200, attemptAll attempt (connsFor repo)) ∧
    (attemptAll attempt (connsFor repo)).map Prod.fst = connsFor repo :=
  ⟨handle_push_event_processed connsFor attempt data repo commits hrepo hne hconns
     hcommits hcf,
   handle_pull_request_event_processed connsFor attempt data repo action hrepo hne
     haction haf,
   attemptAll_map_fst attempt (connsFor repo)⟩

/-- Witness for C2: two subscribers, the first delivery fails, the second is
still attempted and the handlers answer `Processed` / 200. -/
theorem fanout_isolates_failures_witness :
    handle_push_event
      (fun _ => [Connection.mk 1 "private" none, Connection.mk 2 "private" none])
      (fun c => if c.chatId == 1 then Except.error "boom" else Except.ok ())
      (Json.obj [("repository", Json.obj [("full_name", Json.str "o/r")]),
                 ("commits", Json.arr [Json.null]),
                 ("action", Json.str "opened")]) =
      (jsonResp "status" "Processed" 200,
       attemptAll (fun c => if c.chatId == 1 then Except.error "boom" else Except.ok ())
         [Connection.mk 1 "private" none, Connection.mk 2 "private" none]) ∧
    handle_pull_request_event
      (fun _ => [Connection.mk 1 "private" none, Connection.mk 2 "private" none])
      (fun c => if c.chatId == 1 then Except.error "boom" else Except.ok ())
      (Json.obj [("repository", Json.obj [("full_name", Json.str "o/r")]),
                 ("commits", Json.arr [Json.null]),
                 ("action", Json.str "opened")]) =
      (jsonResp "status" "Processed" 200,
       attemptAll (fun c => if c.chatId == 1 then Except.error "boom" else Except.ok ())
         [Connection.mk 1 "private" none, Connection.mk 2 "private" none]) ∧
    (attemptAll (fun c => if c.chatId == 1 then Except.error "boom" else Except.ok ())
       [Connection.mk 1 "private" none, Connection.mk 2 "private" none]).map Prod.fst =
      [Connection.mk 1 "private" none, Connection.mk 2 "private" none] :=
  fanout_isolates_failures
    (fun _ => [Connection.mk 1 "private" none, Connection.mk 2 "private" none])
    (fun c => if c.chatId == 1 then Except.error "boom" else Except.ok ())
    (Json.obj [("repository", Json.obj [("full_name", Json.str "o/r")]),
               ("commits", Json.arr [Json.null]),
               ("action", Json.str "opened")])
    "o/r" (Json.arr [Json.null]) (Json.str "opened")
    rfl (by decide) (by decide) rfl rfl rfl rfl

/-- Claim C9: while `BotLoop` is still `None` (startup race), every fan-out
submission raises inside the per-connection `try`, so it is caught (dropped
and logged) instead of crashing; the handler still returns its `Processed` /
200 HTTP response to the webhook sender.  `fmt` is the message-formatting
step, quantified over. -/
theorem botloop_none_submissions_dropped (connsFor : String → List Connection)
    (fmt : Connection → Except String String) (data : Json) (repo : String)
    (commits : Json)
    (hrepo : extract_repo_name data = .ok (.str repo)) (hne : repo ≠ "")
    (hconns : connsFor repo ≠ [])
    (hcommits : pyGet data "commits" (.arr []) = .ok commits)
    (hcf : commits.isFalsy = false) :
    handle_push_event connsFor (pushAttempt none fmt) data =
      (jsonResp "status" "Processed" 200,
       attemptAll (pushAttempt none fmt) (connsFor repo)) ∧
    ∀ p ∈ attemptAll (pushAttempt none fmt) (connsFor repo),
      ∃ e, p.2 = Except.error e := by
  refine ⟨handle_push_event_processed connsFor (pushAttempt none fmt) data repo
    commits hrepo hne hconns hcommits hcf, ?_⟩
  intro p hp
  rw [attemptAll_outcome (pushAttempt none fmt) (connsFor repo) p hp]
  exact pushAttempt_none_isError fmt p.1

/-- Witness for C9: one subscriber, formatting succeeds, the submission to the
absent loop fails, the response is still `Processed` / 200. -/
theorem botloop_none_submissions_dropped_witness :
    handle_push_event (fun _ => [Connection.mk 5 "group" none])
      (pushAttempt none (fun _ => Except.ok "msg"))
      (Json.obj [("repository", Json.obj [("full_name", Json.str "o/r")]),
                 ("commits", Json.arr [Json.num 1])]) =
      (jsonResp "status" "Processed" 200,
       attemptAll (pushAttempt none (fun _ => Except.ok "msg"))
         [Connection.mk 5 "group" none]) ∧
    ∀ p ∈ attemptAll (pushAttempt none (fun _ => Except.ok "msg"))
        [Connection.mk 5 "group" none],
      ∃ e, p.2 = Except.error e :=
  botloop_none_submissions_dropped (fun _ => [Connection.mk 5 "group" none])
    (fun _ => Except.ok "msg")
    (Json.obj [("repository", Json.obj [("full_name", Json.str "o/r")]),
               ("commits", Json.arr [Json.num 1])])
    "o/r" (Json.arr [Json.num 1]) rfl (by decide) (by decide) rfl rfl

/-- Counterexample to C3 as stated: with a secret configured, a request with a
MISSING signature header is answered 401 ("Invalid Signature"), not 400 as the
claim's first conjunct ("invalid or missing signature … fails with HTTP 400")
says. -/
theorem webhook_missing_signature_is_401_cex :
    Webhook (some "s") (fun _ => []) (fun _ => Except.ok ())
      ⟨[], none, some "push"⟩ (.ok (Json.obj [("x", Json.num 1)])) =
      (jsonResp "error" "Invalid Signature" 401, []) ∧ (401 : Nat) ≠ 400 :=
  ⟨rfl, by decide⟩

/-- Claim C3, amended: when a (non-empty) webhook secret is configured, a
request whose signature is missing, empty, or an ASCII string different from
the expected one is rejected with 401 "Invalid Signature"; a request that
passes verification but carries malformed JSON is rejected with 400 "Invalid
JSON" — the signature failure (401) is never conflated with the
malformed-payload outcome (400); and a non-empty non-ASCII signature header
makes `hmac.compare_digest` raise `TypeError`, which the route's outer
`except` answers with 500 "Internal Server Error". -/
theorem webhook_signature_401_json_400 (secret : String) (hs : secret ≠ "")
    (connsFor : String → List Connection) (attempt : Connection → Except String Unit)
    (req : WebhookRequest) (parsed : Except Unit Json) :
    (verify_webhook_signature req.payload req.signature secret = .ok false →
      Webhook (some secret) connsFor attempt req parsed =
        (jsonResp "error" "Invalid Signature" 401, [])) ∧
    (verify_webhook_signature req.payload req.signature secret = .ok true →
      parsed = .error () →
      Webhook (some secret) connsFor attempt req parsed =
        (jsonResp "error" "Invalid JSON" 400, [])) ∧
    (verify_webhook_signature req.payload req.signature secret = .error () →
      Webhook (some secret) connsFor attempt req parsed =
        (jsonResp "error" "Internal Server Error" 500, [])) := by
  have hst : secretTruthy (some secret) = true := by
    simp [secretTruthy]; exact hs
  refine ⟨?_, ?_, ?_⟩
  · intro hv
    simp [Webhook, hst, hv]
  · intro hv hp
    subst hp
    simp [Webhook, hst, hv, webhookBody]
  · intro hv
    simp [Webhook, hst, hv]

/-- Witness for C3: secret `"k"`; a missing signature gets 401; a correct
signature with malformed JSON gets 400; the non-ASCII signature `"\xff"`
gets 500. -/
theorem webhook_signature_401_json_400_witness :
    Webhook (some "k") (fun _ => []) (fun _ => Except.ok ())
      ⟨[], none, some "push"⟩ (.ok Json.null) =
      (jsonResp "error" "Invalid Signature" 401, []) ∧
    Webhook (some "k") (fun _ => []) (fun _ => Except.ok ())
      ⟨[], some (expected_signature "k" []), some "push"⟩ (.error ()) =
      (jsonResp "error" "Invalid JSON" 400, []) ∧
    Webhook (some "k") (fun _ => []) (fun _ => Except.ok ())
      ⟨[], some "\xff", some "push"⟩ (.ok Json.null) =
      (jsonResp "error" "Internal Server Error" 500, []) :=
  ⟨(webhook_signature_401_json_400 "k" (by decide) (fun _ => []) (fun _ => Except.ok ())
      ⟨[], none, some "push"⟩ (.ok Json.null)).1 rfl,
   (webhook_signature_401_json_400 "k" (by decide) (fun _ => []) (fun _ => Except.ok ())
      ⟨[], some (expected_signature "k" []), some "push"⟩ (.error ())).2.1
     (verify_expected_true [] "k" (by decide)) rfl,
   (webhook_signature_401_json_400 "k" (by decide) (fun _ => []) (fun _ => Except.ok ())
      ⟨[], some "\xff", some "push"⟩ (.ok Json.null)).2.2
     (verify_nonascii_error [] "k" "\xff" (by decide) (by decide) (by decide))⟩

/-- Counterexample to C4 as stated: with NO secret configured, a well-formed
payload (valid non-empty JSON) carrying the supported event type `push` is not
accepted with 200 — the push handler rejects it with 400 "Missing Repository".
The claim says every well-formed payload with a supported or unsupported event
type is accepted with HTTP 200. -/
theorem webhook_no_secret_wellformed_400_cex :
    Webhook none (fun _ => []) (fun _ => Except.ok ())
      ⟨[], some "sha256=junk", some "push"⟩ (.ok (Json.obj [("foo", Json.num 1)])) =
      (jsonResp "error" "Missing Repository" 400, []) ∧ (400 : Nat) ≠ 200 :=
  ⟨rfl, by decide⟩

/-- Claim C4, amended: when no webhook secret is configured, the signature
verification step is skipped entirely — the response never depends on the
`X-Hub-Signature-256` header — and every well-formed payload with an
UNSUPPORTED event type is accepted with 200 "ignored"; payloads with supported
event types are dispatched to their handlers, which may still reject them
(e.g. 400 for a missing repository).  The `Webhook` route itself contains no
log statement specific to this bypass (only the generic received-event log),
so the reduced-security mode is silent, not separately logged. -/
theorem webhook_no_secret_skips_verification
    (connsFor : String → List Connection) (attempt : Connection → Except String Unit)
    (payload : List Nat) (evt sig1 sig2 : Option String)
    (parsed : Except Unit Json) (data : Json) :
    Webhook none connsFor attempt ⟨payload, sig1, evt⟩ parsed =
      Webhook none connsFor attempt ⟨payload, sig2, evt⟩ parsed ∧
    (parsed = .ok data → data.isFalsy = false →
      evt ∉ [some "push", some "pull_request", some "issues",
             some "create", some "delete", some "release"] →
      Webhook none connsFor attempt ⟨payload, sig1, evt⟩ parsed =
        (jsonResp "status" "ignored" 200, [])) := by
  constructor
  · cases parsed with
    | error e => rfl
    | ok d => rfl
  · intro hp hd hevt
    have hw : Webhook none connsFor attempt ⟨payload, sig1, evt⟩ parsed =
        webhookBody connsFor attempt ⟨payload, sig1, evt⟩ parsed := by
      simp [Webhook, secretTruthy]
    rw [hw]
    exact webhookBody_ignored connsFor attempt ⟨payload, sig1, evt⟩ parsed data hp hd hevt

/-- Witness for C4: no secret; two different signature headers give the same
response, and an unsupported event type is accepted as ignored. -/
theorem webhook_no_secret_skips_verification_witness :
    Webhook none (fun _ => []) (fun _ => Except.ok ())
      ⟨[1], some "sha256=bad", some "gollum"⟩ (.ok (Json.obj [("a", Json.num 1)])) =
      Webhook none (fun _ => []) (fun _ => Except.ok ())
        ⟨[1], none, some "gollum"⟩ (.ok (Json.obj [("a", Json.num 1)])) ∧
    Webhook none (fun _ => []) (fun _ => Except.ok ())
      ⟨[1], some "sha256=bad", some "gollum"⟩ (.ok (Json.obj [("a", Json.num 1)])) =
      (jsonResp "status" "ignored" 200, []) :=
  ⟨(webhook_no_secret_skips_verification (fun _ => []) (fun _ => Except.ok ()) [1]
      (some "gollum") (some "sha256=bad") none (.ok (Json.obj [("a", Json.num 1)]))
      (Json.obj [("a", Json.num 1)])).1,
   (webhook_no_secret_skips_verification (fun _ => []) (fun _ => Except.ok ()) [1]
      (some "gollum") (some "sha256=bad") none (.ok (Json.obj [("a", Json.num 1)]))
      (Json.obj [("a", Json.num 1)])).2 rfl rfl (by decide)⟩

/-- Counterexample to C6 as stated: a POST /webhook request carrying the
unsupported event type `gollum` but failing signature verification (secret
configured, header missing) is answered 401, not acknowledged with 200
"ignored" as the claim requires of every request with an unsupported type. -/
theorem webhook_unsupported_event_bad_signature_cex :
    Webhook (some "s") (fun _ => []) (fun _ => Except.ok ())
      ⟨[], none, some "gollum"⟩ (.ok (Json.obj [("a", Json.num 1)])) =
      (jsonResp "error" "Invalid Signature" 401, []) ∧ (401 : Nat) ≠ 200 :=
  ⟨rfl, by decide⟩

/-- Claim C6, amended: every request that passes the signature gate (no secret
configured, or the signature verifies) and carries valid non-empty JSON, with
an `X-GitHub-Event` type outside {push, pull_request, issues, create, delete,
release} — including an absent header — is accepted and acknowledged with 200
and status "ignored", never treated as an error. -/
theorem webhook_unsupported_event_ignored (secretCfg : Option String)
    (connsFor : String → List Connection) (attempt : Connection → Except String Unit)
    (req : WebhookRequest) (parsed : Except Unit Json) (data : Json)
    (hsig : secretTruthy secretCfg = true →
      verify_webhook_signature req.payload req.signature (secretCfg.getD "") = .ok true)
    (hp : parsed = .ok data) (hd : data.isFalsy = false)
    (hevt : req.eventType ∉ [some "push", some "pull_request", some "issues",
                             some "create", some "delete", some "release"]) :
    Webhook secretCfg connsFor attempt req parsed =
      (jsonResp "status" "ignored" 200, []) := by
  cases hst : secretTruthy secretCfg with
  | false =>
    simp only [Webhook, hst, Bool.false_eq_true, if_false]
    exact webhookBody_ignored connsFor attempt req parsed data hp hd hevt
  | true =>
    simp only [Webhook, hst, if_true, hsig hst]
    exact webhookBody_ignored connsFor attempt req parsed data hp hd hevt

/-- Witness for C6: no secret, event type `gollum`, non-empty JSON object. -/
theorem webhook_unsupported_event_ignored_witness :
    Webhook none (fun _ => []) (fun _ => Except.ok ())
      ⟨[], some "x", some "gollum"⟩ (.ok (Json.obj [("a", Json.num 1)])) =
      (jsonResp "status" "ignored" 200, []) :=
  webhook_unsupported_event_ignored none (fun _ => []) (fun _ => Except.ok ())
    ⟨[], some "x", some "gollum"⟩ (.ok (Json.obj [("a", Json.num 1)]))
    (Json.obj [("a", Json.num 1)])
    (fun h => absurd h (by decide)) rfl rfl (by decide)

/-- Counterexample to C7 as stated: the payload `{"repository": 5}` lacks a
repository full name, yet `handle_push_event` answers 500 ("Push Processing
Failed", from the caught `AttributeError` of `(5).get("full_name")`), not the
claimed client error 400. -/
theorem push_nonobject_repository_500_cex :
    handle_push_event (fun _ => []) (fun _ => Except.ok ())
      (Json.obj [("repository", Json.num 5)]) =
      (jsonResp "error" "Push Processing Failed" 500, []) ∧ (500 : Nat) ≠ 400 :=
  ⟨rfl, by decide⟩

/-- Claim C7, amended: for every supported event type, when the repository
full-name extraction completes and yields a missing or falsy value (for
instance the `repository` key is absent, or an object without `full_name`),
the handler returns 400 and attempts no notification; when the extraction
raises (a non-dict `repository` member) the handler returns 500, again with no
notification attempted. -/
theorem handlers_missing_repo_400 (connsFor : String → List Connection)
    (attempt : Connection → Except String Unit) (data robj v : Json)
    (hrep : pyGet data "repository" (.obj []) = .ok robj)
    (hfn : pyGet robj "full_name" .null = .ok v)
    (hv : v.isFalsy = true) :
    handle_push_event connsFor attempt data =
      (jsonResp "error" "Missing Repository" 400, []) ∧
    handle_pull_request_event connsFor attempt data =
      (jsonResp "error" "Missing Fields" 400, []) ∧
    handle_issues_event connsFor attempt data =
      (jsonResp "error" "Missing Fields" 400, []) ∧
    handle_create_event connsFor attempt data =
      (jsonResp "error" "Missing Fields" 400, []) ∧
    handle_delete_event connsFor attempt data =
      (jsonResp "error" "Missing Fields" 400, []) ∧
    handle_release_event connsFor attempt data =
      (jsonResp "error" "Missing Fields" 400, []) := by
  obtain ⟨fs, rfl⟩ := pyGet_ok_obj hrep
  have hex : extract_repo_name (Json.obj fs) = .ok v := by
    simp only [extract_repo_name, bind, Except.bind, hrep, hfn]
  refine ⟨?_, ?_, ?_, ?_, ?_, ?_⟩
  · simp [handle_push_event, hex, hv]
  · simp [handle_pull_request_event, hex, hv, pyGet]
  · simp [handle_issues_event, hex, hv, pyGet]
  · simp [handle_create_event, hex, hv, pyGet]
  · simp [handle_delete_event, hex, hv, pyGet]
  · simp [handle_release_event, hex, hv, pyGet]

/-- Witness for C7: the empty JSON object payload `{}`… the repository key is
absent, the default `{}` has no `full_name`, so the extracted value is `None`
(falsy) and every handler answers 400 with no submissions. -/
theorem handlers_missing_repo_400_witness :
    handle_push_event (fun _ => []) (fun _ => Except.ok ()) (Json.obj [("x", Json.num 1)]) =
      (jsonResp "error" "Missing Repository" 400, []) ∧
    handle_pull_request_event (fun _ => []) (fun _ => Except.ok ())
      (Json.obj [("x", Json.num 1)]) = (jsonResp "error" "Missing Fields" 400, []) ∧
    handle_issues_event (fun _ => []) (fun _ => Except.ok ())
      (Json.obj [("x", Json.num 1)]) = (jsonResp "error" "Missing Fields" 400, []) ∧
    handle_create_event (fun _ => []) (fun _ => Except.ok ())
      (Json.obj [("x", Json.num 1)]) = (jsonResp "error" "Missing Fields" 400, []) ∧
    handle_delete_event (fun _ => []) (fun _ => Except.ok ())
      (Json.obj [("x", Json.num 1)]) = (jsonResp "error" "Missing Fields" 400, []) ∧
    handle_release_event (fun _ => []) (fun _ => Except.ok ())
      (Json.obj [("x", Json.num 1)]) = (jsonResp "error" "Missing Fields" 400, []) :=
  handlers_missing_repo_400 (fun _ => []) (fun _ => Except.ok ())
    (Json.obj [("x", Json.num 1)]) (Json.obj []) Json.null rfl rfl rfl

/-- Claim C5 (evidence of the code bug): re-inserting the identical
subscription tuple with `topic_id = NULL` appends a second identical row —
MySQL's `unique_connection` key never fires on a `NULL` key column, so the
`INSERT ... ON DUPLICATE KEY UPDATE` inserts a duplicate instead of being a
no-op.  With a non-`NULL` topic the re-insert is idempotent, as the claim
expects for every tuple. -/
theorem add_repo_connection_null_topic_duplicate :
    add_repo_connection (add_repo_connection [] 1 "a/b" 10 "private" none)
      1 "a/b" 10 "private" none =
      [ConnRow.mk 1 "a/b" 10 "private" none, ConnRow.mk 1 "a/b" 10 "private" none] ∧
    add_repo_connection (add_repo_connection [] 1 "a/b" 10 "private" (some 7))
      1 "a/b" 10 "private" (some 7) =
      [ConnRow.mk 1 "a/b" 10 "private" (some 7)] :=
  ⟨by decide, by decide⟩

/-- Claim C8: `validate_github_repo("https://github.com/a/b/")` normalizes to
`"a/b"`; `"a/b/c"` is invalid (two slashes); `"a b/c"` is invalid (space is
outside `[a-zA-Z0-9._-]`). -/
theorem validate_github_repo_examples :
    validate_github_repo "https://github.com/a/b/" = some "a/b" ∧
    validate_github_repo "a/b/c" = none ∧
    validate_github_repo "a b/c" = none :=
  ⟨by decide, by decide, by decide⟩

/-- Claim C10: a stored row is deleted by
`remove_repo_connection(user, repo, chat, topic)` exactly when its
`(Telegram_Id, Repo_Name, Chat_Id)` match and its `Topic_Id` either equals the
given (non-NULL) topic or is NULL — so unsubscribing with a specific topic
also removes the same user's no-topic row for that repository and chat, not
only the exact tuple. -/
theorem remove_repo_connection_matches (table : List ConnRow) (tid : Int)
    (repo : String) (chat : Int) (topic : Option Int) (r : ConnRow)
    (hr : r ∈ table) :
    r ∉ remove_repo_connection table tid repo chat topic ↔
      r.telegramId = tid ∧ r.repoName = repo ∧ r.chatId = chat ∧
        ((∃ t, topic = some t ∧ r.topicId = some t) ∨ r.topicId = none) := by
  simp only [remove_repo_connection, List.mem_filter, hr, true_and,
    Bool.not_eq_true', Bool.not_eq_false, Bool.and_eq_true, Bool.or_eq_true,
    beq_iff_eq]
  cases topic with
  | none => cases hrt : r.topicId <;> simp [sqlTopicEq, hrt, and_assoc]
  | some t => cases hrt : r.topicId <;> simp [sqlTopicEq, hrt, and_assoc]

/-- Witness for C10: removing with topic 5 also deletes the no-topic row of
the same user, repository and chat. -/
theorem remove_repo_connection_matches_witness :
    ConnRow.mk 1 "a/b" 10 "private" none ∈
      [ConnRow.mk 1 "a/b" 10 "supergroup" (some 5),
       ConnRow.mk 1 "a/b" 10 "private" none] ∧
    ConnRow.mk 1 "a/b" 10 "private" none ∉
      remove_repo_connection
        [ConnRow.mk 1 "a/b" 10 "supergroup" (some 5),
         ConnRow.mk 1 "a/b" 10 "private" none] 1 "a/b" 10 (some 5) :=
  ⟨by decide,
   (remove_repo_connection_matches
      [ConnRow.mk 1 "a/b" 10 "supergroup" (some 5),
       ConnRow.mk 1 "a/b" 10 "private" none] 1 "a/b" 10 (some 5)
      (ConnRow.mk 1 "a/b" 10 "private" none) (by decide)).mpr
     ⟨rfl, rfl, rfl, Or.inr rfl⟩⟩

end GitTracker
